import Mathlib

/-
  Shallow embedding of the xmlify converter (src/xmlify.py).

  XML elements are modelled as a tree of tag / attributes / children / own
  text.  Fallible Python code (uncaught exceptions) is modelled with
  `Except Err`.  The module-wide flag `use_tag_name` is threaded as an
  explicit boolean parameter of every encode operation.
-/

namespace Xmlify

/-- An XML element: tag name, attribute list, child elements (document
order) and the element's own text. -/
inductive Xelt where
  | mk (tag : String) (attrs : List (String × String)) (children : List Xelt)
      (text : Option String)

mutual

def Xelt.decEq : (a b : Xelt) → Decidable (a = b)
  | .mk t1 a1 c1 x1, .mk t2 a2 c2 x2 =>
    if h1 : t1 = t2 then
      if h2 : a1 = a2 then
        match Xelt.decEqList c1 c2 with
        | isTrue h3 =>
          if h4 : x1 = x2 then isTrue (by rw [h1, h2, h3, h4])
          else isFalse (by intro hc; injection hc; contradiction)
        | isFalse h3 => isFalse (by intro hc; injection hc; contradiction)
      else isFalse (by intro hc; injection hc; contradiction)
    else isFalse (by intro hc; injection hc; contradiction)

def Xelt.decEqList : (a b : List Xelt) → Decidable (a = b)
  | [], [] => isTrue rfl
  | [], _ :: _ => isFalse (by intro hc; cases hc)
  | _ :: _, [] => isFalse (by intro hc; cases hc)
  | a :: as, b :: bs =>
    match Xelt.decEq a b with
    | isTrue h1 =>
      match Xelt.decEqList as bs with
      | isTrue h2 => isTrue (by rw [h1, h2])
      | isFalse h2 => isFalse (by intro hc; injection hc; contradiction)
    | isFalse h1 => isFalse (by intro hc; injection hc; contradiction)

end

instance : DecidableEq Xelt := Xelt.decEq

def Xelt.tag : Xelt → String
  | .mk t _ _ _ => t

def Xelt.attrs : Xelt → List (String × String)
  | .mk _ a _ _ => a

def Xelt.children : Xelt → List Xelt
  | .mk _ _ c _ => c

def Xelt.text : Xelt → Option String
  | .mk _ _ _ t => t

/-- Uncaught Python exceptions of the converter. -/
inductive Err where
  /-- `ValueError` escaping from `int(...)` on an unparsable string, or
  raised by the element library for an invalid XML tag name. -/
  | valueError
  /-- `NameSpec._invalid`: rendering an identity with neither name nor id. -/
  | missingIdentity
  /-- `State.from_xelt`: both a `prerequisites` and an `actions` child. -/
  | ambiguousConditions
  /-- `State.from_xelt`: neither a `prerequisites` nor an `actions` child. -/
  | missingConditions
  /-- `TypeError` from iterating a missing (None) container element. -/
  | missingContainer
  /-- Other `TypeError`s: a non-string tag passed to `etree.Element`, a None
  builder argument, or a membership test on None. -/
  | typeError
deriving DecidableEq

/-- `elt.get(name)`: attribute lookup. -/
def Xelt.get (x : Xelt) (name : String) : Option String :=
  (x.attrs.find? (fun p => p.1 == name)).map Prod.snd

/-- `elt.find(name)` with a plain tag: first direct child with that tag. -/
def Xelt.find (x : Xelt) (name : String) : Option Xelt :=
  x.children.find? (fun c => c.tag == name)

/-- `elt.findtext(name)`: text of the first matching child; an element with
no text yields the empty string; no element yields None. -/
def Xelt.findtext (x : Xelt) (name : String) : Option String :=
  (x.find name).map (fun c => c.text.getD "")

instance {ε α : Type} [DecidableEq ε] [DecidableEq α] : DecidableEq (Except ε α) :=
  fun a b =>
    match a, b with
    | .ok x, .ok y =>
      if h : x = y then isTrue (by rw [h]) else isFalse (by intro hc; cases hc; exact h rfl)
    | .error x, .error y =>
      if h : x = y then isTrue (by rw [h]) else isFalse (by intro hc; cases hc; exact h rfl)
    | .ok _, .error _ => isFalse (by intro hc; cases hc)
    | .error _, .ok _ => isFalse (by intro hc; cases hc)

abbrev Lookup := Xelt → Option String

def attr_lookup (name : String) : Lookup := fun x => x.get name

def elt_lookup (name : String) : Lookup := fun x => x.findtext name

def attr_elt (name : String) : List Lookup :=
  [attr_lookup name, elt_lookup name]

def self_lookup : Lookup := fun x => x.text

/-- `do_lookup`: first lookup result that is not None. -/
def do_lookup (elt : Xelt) : List Lookup → Option String
  | [] => none
  | l :: ls =>
    match l elt with
    | some s => some s
    | none => do_lookup elt ls

/-- Python `int()` on a string: optional surrounding whitespace, an optional
sign, then a non-empty run of decimal digits. -/
def parseDigits : List Char → Option Nat
  | [] => none
  | cs => cs.foldl
      (fun acc c =>
        acc.bind (fun n => if c.isDigit then some (n * 10 + (c.toNat - 48)) else none))
      (some 0)

def stripWs (s : String) : List Char :=
  ((s.toList.dropWhile Char.isWhitespace).reverse.dropWhile Char.isWhitespace).reverse

def pyIntParse (s : String) : Option Int :=
  match stripWs s with
  | '-' :: rest => (parseDigits rest).map (fun n => -(n : Int))
  | '+' :: rest => (parseDigits rest).map (fun n => (n : Int))
  | cs => (parseDigits cs).map (fun n => (n : Int))

/-- `do_int_lookup`: `int(lookup(elt))` per lookup; `int(None)` raises
`TypeError`, which is caught and skips to the next lookup; `int` on an
unparsable string raises `ValueError`, which is NOT caught and escapes. -/
def do_int_lookup (elt : Xelt) : List Lookup → Except Err (Option Int)
  | [] => Except.ok none
  | l :: ls =>
    match l elt with
    | none => do_int_lookup elt ls
    | some s =>
      match pyIntParse s with
      | some n => Except.ok (some n)
      | none => Except.error Err.valueError

/-- `str(bool)` in Python. -/
def pyStrBool (b : Bool) : String := if b then "True" else "False"

/-- ASCII approximation of the XML Name production enforced by lxml's tag
validation: a name starts with a letter or underscore and continues with
letters, digits, hyphen, period or underscore.  (Unicode name characters
and the namespace colon are not used by this program's documents.) -/
def isNameStartChar (c : Char) : Bool := c.isAlpha || c == '_'

def isNameChar (c : Char) : Bool :=
  isNameStartChar c || c.isDigit || c == '-' || c == '.'

def validXmlTag (s : String) : Bool :=
  match s.toList with
  | [] => false
  | c :: cs => isNameStartChar c && cs.all isNameChar

/-- `etree.Element(tag, **attrs)` with a string tag: lxml validates the
tag against the XML Name production and raises `ValueError` on an invalid
name — for example one starting with a digit, or containing a tab.
Attribute names in this program are fixed valid literals; attribute
values are unrestricted strings. -/
def etree_Element (tag : String) (attrs : List (String × String)) :
    Except Err Xelt :=
  if validXmlTag tag then Except.ok (Xelt.mk tag attrs [] none)
  else Except.error Err.valueError

/-- A Python list comprehension over fallible element decoding: left to
right, first raised error escapes. -/
def exceptMap (f : α → Except Err β) : List α → Except Err (List β)
  | [] => Except.ok []
  | a :: as => do
    let b ← f a
    let bs ← exceptMap f as
    Except.ok (b :: bs)

/-- `[f(idx, x) for idx, x in enumerate(xs)]` with fallible `f`. -/
def exceptMapIdx (f : Nat → α → Except Err β) : Nat → List α → Except Err (List β)
  | _, [] => Except.ok []
  | i, a :: as => do
    let b ← f i a
    let bs ← exceptMapIdx f (i + 1) as
    Except.ok (b :: bs)

/-- The identity pair.  The diagnostic `_sourceline` field of the Python
class feeds only error message strings and is omitted. -/
structure NameSpec where
  id : Option Int := none
  name : Option String := none
deriving DecidableEq

def namesearch_default : List Lookup :=
  [attr_lookup "name", elt_lookup "name"]

def idsearch_default : List Lookup :=
  [attr_lookup "id", elt_lookup "id", attr_lookup "index", elt_lookup "index"]

/-- `CustomSpec`: both searches collapse to the entity kind's key. -/
def custom_search (kind : String) : List Lookup :=
  [attr_lookup kind, elt_lookup kind]

/-- `NameSpec.intname`: whether `int(self.name)` succeeds; `TypeError`
(name is None) and `ValueError` (unparsable) both give False. -/
def NameSpec.intname (n : NameSpec) : Bool :=
  match n.name with
  | none => false
  | some s => (pyIntParse s).isSome

/-- `NameSpec.__str__`. -/
def NameSpec.str (n : NameSpec) : Except Err String :=
  match n.name with
  | some s => Except.ok s
  | none =>
    match n.id with
    | some i => Except.ok (toString i)
    | none => Except.error Err.missingIdentity

/-- `NameSpec.to_xattr`. -/
def NameSpec.to_xattr (n : NameSpec) : Except Err (String × String) :=
  match n.name with
  | some s => Except.ok ("name", s)
  | none =>
    match n.id with
    | some i => Except.ok ("id", toString i)
    | none => Except.error Err.missingIdentity

/-- `NameSpec.from_xelt` with explicit search chains (the Python classmethod
resolves them through the class hierarchy). -/
def NameSpec.from_xelt (elt : Xelt) (idsearch namesearch : List Lookup) :
    Except Err NameSpec := do
  let id ← do_int_lookup elt idsearch
  let name := do_lookup elt namesearch
  Except.ok ⟨id, name⟩

/-- `RoomSpec.from_xelt`: id search is `[self_lookup]`, name search is the
inherited custom search on key "room". -/
def RoomSpec.from_xelt (elt : Xelt) : Except Err NameSpec :=
  NameSpec.from_xelt elt [self_lookup] (custom_search "room")

/-- `RoomSpec.to_xelt` (the adjacency reference encoder).  The custom
branch calls `etree.Element(self.name)` with the name string, which lxml
validates as an XML name. -/
def RoomSpec.to_xelt (u : Bool) (n : NameSpec) : Except Err Xelt :=
  match n.name with
  | some s =>
    if u && !(s.toList.contains ' ') then
      etree_Element s []
    else do
      let kv ← n.to_xattr
      Except.ok (Xelt.mk "room" [kv] [] none)
  | none => do
    let kv ← n.to_xattr
    Except.ok (Xelt.mk "room" [kv] [] none)

structure ConditionSpec where
  item : NameSpec
  state : NameSpec
deriving DecidableEq

/-- `ConditionSpec.from_xelt`: item via the ItemSpec custom search on key
"item"; state name via the StateSpec custom search on key "state", but the
state id via the override `[attr "state", attr "itemstate", elt "itemstate"]`. -/
def ConditionSpec.from_xelt (elt : Xelt) : Except Err ConditionSpec := do
  let item ← NameSpec.from_xelt elt (custom_search "item") (custom_search "item")
  let state ← NameSpec.from_xelt elt
    [attr_lookup "state", attr_lookup "itemstate", elt_lookup "itemstate"]
    (custom_search "state")
  Except.ok ⟨item, state⟩

/-- `ConditionSpec.to_xelt` (the Python default for `type_name` is
"prereq"; it is passed explicitly here). -/
def ConditionSpec.to_xelt (c : ConditionSpec) (type_name : String) :
    Except Err Xelt := do
  let i ← c.item.str
  let s ← c.state.str
  etree_Element type_name [("item", i), ("state", s)]

structure State where
  name : NameSpec
  image : Option String
  description : Option String
  conditions : List ConditionSpec
  get : Option String
  gettable : Option Bool
deriving DecidableEq

/-- Iterating `elt.find(tag)` when the container is absent raises a
`TypeError` (iteration over None). -/
def findContainer (elt : Xelt) (name : String) : Except Err Xelt :=
  match elt.find name with
  | some c => Except.ok c
  | none => Except.error Err.missingContainer

/-- `State.from_xelt`. -/
def State.from_xelt (elt : Xelt) (index : Option Int) : Except Err State := do
  let name0 ← NameSpec.from_xelt elt idsearch_default namesearch_default
  let name := if name0.id.isNone then { name0 with id := index } else name0
  let image := attr_lookup "image" elt
  let description := elt_lookup "description" elt
  let cont ←
    match elt.find "prerequisites", elt.find "actions" with
    | some _, some _ => Except.error Err.ambiguousConditions
    | some p, none => Except.ok p
    | none, some a => Except.ok a
    | none, none => Except.error Err.missingConditions
  let conditions ← exceptMap ConditionSpec.from_xelt cont.children
  let get := elt_lookup "get" elt
  let gettable := (do_lookup elt (attr_elt "gettable")).map (fun s => s != "")
  Except.ok ⟨name, image, description, conditions, get, gettable⟩

/-- `State.to_xelt`.  In the custom-tag branch the Python code passes
`self.name` — the NameSpec object, not a string — to `etree.Element`,
which raises a `TypeError`.  `elts += E.get(...)` and
`elts += E.conditions(...)` extend the list with the built element's
CHILDREN (elements are iterable over children), so the `get` element is
dropped and the condition elements are appended without any container. -/
def State.to_xelt (u : Bool) (st : State) : Except Err Xelt := do
  let x ←
    match st.name.name with
    | some s =>
      if u && !(s.toList.contains ' ') then
        Except.error Err.typeError
      else do
        let kv ← st.name.to_xattr
        Except.ok (Xelt.mk "state" [kv] [] none)
    | none => do
      let kv ← st.name.to_xattr
      Except.ok (Xelt.mk "state" [kv] [] none)
  let image := match st.image with | some i => i | none => ""
  let descr ←
    match st.description with
    | some d => Except.ok (Xelt.mk "description" [] [] (some d))
    | none => Except.error Err.typeError
  let kwargs := [("image", image)] ++
    (match st.gettable with
     | some b => [("gettable", pyStrBool b)]
     | none => [])
  let conds ← exceptMap (fun c => ConditionSpec.to_xelt c "prereq") st.conditions
  Except.ok (Xelt.mk x.tag (x.attrs ++ kwargs) (x.children ++ [descr] ++ conds) x.text)

structure Item where
  name : NameSpec
  states : List State
deriving DecidableEq

/-- `Item.from_xelt`. -/
def Item.from_xelt (elt : Xelt) (index : Option Int) : Except Err Item := do
  let name0 ← NameSpec.from_xelt elt idsearch_default namesearch_default
  let name := if name0.id.isNone then { name0 with id := index } else name0
  let statesC ← findContainer elt "states"
  let states ← exceptMapIdx (fun i x => State.from_xelt x (some (i : Int))) 0 statesC.children
  Except.ok ⟨name, states⟩

/-- `Item.to_xelt`.  When `use_tag_name` holds and `intname()` is False
with `name` equal to None, the membership test `' ' not in self.name.name`
raises a `TypeError`.  The custom branch calls
`etree.Element(self.name.name)`, which lxml validates as an XML name. -/
def Item.to_xelt (u : Bool) (it : Item) : Except Err Xelt := do
  let x ←
    if u && !(NameSpec.intname it.name) then
      match it.name.name with
      | none => Except.error Err.typeError
      | some s =>
        if !(s.toList.contains ' ') then
          etree_Element s []
        else do
          let kv ← it.name.to_xattr
          Except.ok (Xelt.mk "item" [kv] [] none)
    else do
      let kv ← it.name.to_xattr
      Except.ok (Xelt.mk "item" [kv] [] none)
  let sts ← exceptMap (State.to_xelt u) it.states
  Except.ok (Xelt.mk x.tag x.attrs (x.children ++ [Xelt.mk "states" [] sts none]) x.text)

structure Room where
  name : NameSpec
  adjacent_rooms : List NameSpec
  states : List State
  items : List Item
deriving DecidableEq

/-- `Room.from_xelt`. -/
def Room.from_xelt (elt : Xelt) : Except Err Room := do
  let name ← NameSpec.from_xelt elt idsearch_default namesearch_default
  let adjC ← findContainer elt "adjacentrooms"
  let adjs ← exceptMap RoomSpec.from_xelt adjC.children
  let stC ← findContainer elt "states"
  let states ← exceptMapIdx (fun i x => State.from_xelt x (some (i : Int))) 0 stC.children
  let itC ← findContainer elt "items"
  let items ← exceptMapIdx (fun i x => Item.from_xelt x (some (i : Int))) 0 itC.children
  Except.ok ⟨name, adjs, states, items⟩

/-- `Room.to_xelt`.  The tag test is applied to `str(self.name)` — the
display string (name if set, else the decimal id) — with only a space
check; the custom branch calls `etree.Element(name)`, which lxml
validates as an XML name (so a numeric display string raises
`ValueError`); the generic fallback always writes the display string
under the `name` attribute. -/
def Room.to_xelt (u : Bool) (r : Room) : Except Err Xelt := do
  let name ← r.name.str
  let x ←
    if u && !(name.toList.contains ' ') then etree_Element name []
    else Except.ok (Xelt.mk "room" [("name", name)] [] none)
  let adjs ← exceptMap (RoomSpec.to_xelt u) r.adjacent_rooms
  let states ← exceptMap (State.to_xelt u) r.states
  let items ← exceptMap (Item.to_xelt u) r.items
  Except.ok (Xelt.mk x.tag x.attrs
    (x.children ++
      [Xelt.mk "adjacentrooms" [] adjs none,
       Xelt.mk "states" [] states none,
       Xelt.mk "items" [] items none]) x.text)

structure SpecialResponse where
  item : NameSpec
  image : Option String
  command : Option String
  response : Option String
  item_state : NameSpec
  actions : List ConditionSpec
deriving DecidableEq

/-- The item-resolution priority of `SpecialResponse.from_xelt`: a parsed
"itemindex" child gives a bare id-only identity, else the ItemSpec custom
search runs on the node itself. -/
def sr_item_resolve (elt : Xelt) : Option Int → Except Err NameSpec
  | some n => Except.ok (NameSpec.mk (some n) none)
  | none => NameSpec.from_xelt elt (custom_search "item") (custom_search "item")

/-- `SpecialResponse.from_xelt`.  Note the `response` lookup targets the
misspelled child tag "reponse". -/
def SpecialResponse.from_xelt (elt : Xelt) : Except Err SpecialResponse := do
  let item_index ← do_int_lookup elt [elt_lookup "itemindex"]
  let item ← sr_item_resolve elt item_index
  let image := do_lookup elt (attr_elt "image")
  let command := do_lookup elt (attr_elt "command")
  let response := elt_lookup "reponse" elt
  let item_state ← NameSpec.from_xelt elt
    [attr_lookup "state", elt_lookup "state", attr_lookup "itemstate", elt_lookup "itemstate"]
    (custom_search "state")
  let actsC ← findContainer elt "actions"
  let actions ← exceptMap ConditionSpec.from_xelt actsC.children
  Except.ok ⟨item, image, command, response, item_state, actions⟩

/-- `SpecialResponse.to_xelt`.  `image=self.image` and
`command=self.command` are passed straight to the element builder, which
raises a `TypeError` on a None attribute value. -/
def SpecialResponse.to_xelt (sr : SpecialResponse) : Except Err Xelt := do
  let respElt := Xelt.mk "response" [] [] sr.response
  let acts ← exceptMap (fun c => ConditionSpec.to_xelt c "prereq") sr.actions
  let i ← sr.item.str
  let s ← sr.item_state.str
  let img ←
    match sr.image with
    | some v => Except.ok v
    | none => Except.error Err.typeError
  let cmd ←
    match sr.command with
    | some v => Except.ok v
    | none => Except.error Err.typeError
  Except.ok (Xelt.mk "specialresponse"
    [("item", i), ("state", s), ("image", img), ("command", cmd)]
    [respElt, Xelt.mk "actions" [] acts none] none)

structure House where
  rooms : List Room
  special_responses : List SpecialResponse
deriving DecidableEq

/-- `House.from_xelt`. -/
def House.from_xelt (elt : Xelt) : Except Err House := do
  let rC ← findContainer elt "rooms"
  let rooms ← exceptMap Room.from_xelt rC.children
  let sC ← findContainer elt "specialresponses"
  let srs ← exceptMap SpecialResponse.from_xelt sC.children
  Except.ok ⟨rooms, srs⟩

/-- `House.to_xelt`. -/
def House.to_xelt (u : Bool) (h : House) : Except Err Xelt := do
  let rooms ← exceptMap (Room.to_xelt u) h.rooms
  let srs ← exceptMap SpecialResponse.to_xelt h.special_responses
  Except.ok (Xelt.mk "house" []
    [Xelt.mk "rooms" [] rooms none, Xelt.mk "specialresponses" [] srs none] none)

/- Concrete example documents used by the concrete-evaluation theorems. -/

def dummyElt : Xelt := Xelt.mk "x" [] [] none

def prereqElt : Xelt := Xelt.mk "prereq" [("item", "1"), ("state", "2")] [] none

def stateElt : Xelt :=
  Xelt.mk "state" [("name", "Shiny")]
    [Xelt.mk "description" [] [] (some "A"),
     Xelt.mk "prerequisites" [] [prereqElt] none] none

def docC : Xelt :=
  Xelt.mk "house" []
    [Xelt.mk "rooms" []
      [Xelt.mk "room" [("name", "Hall")]
        [Xelt.mk "adjacentrooms" [] [] none,
         Xelt.mk "states" [] [stateElt] none,
         Xelt.mk "items" [] [] none] none] none,
     Xelt.mk "specialresponses" [] [] none] none


/- ## Helper lemmas -/

theorem except_bind_ok {α β : Type} (a : α) (f : α → Except Err β) :
    (Except.ok a >>= f) = f a := rfl

theorem except_bind_error {α β : Type} (e : Err) (f : α → Except Err β) :
    ((Except.error e : Except Err α) >>= f) = (Except.error e : Except Err β) := rfl

/-- `do_int_lookup` is the string chain followed by one parse attempt on the
first present candidate: a None candidate is skipped, an unparsable present
candidate escapes with `ValueError`. -/
theorem do_int_lookup_char (elt : Xelt) (ls : List Lookup) :
    do_int_lookup elt ls =
      match do_lookup elt ls with
      | none => Except.ok none
      | some s =>
        match pyIntParse s with
        | some n => Except.ok (some n)
        | none => Except.error Err.valueError := by
  induction ls with
  | nil => rfl
  | cons l ls ih =>
    cases h : l elt with
    | none => simp [do_int_lookup, do_lookup, h, ih]
    | some s => simp [do_int_lookup, do_lookup, h]

theorem to_xattr_of_name {n : NameSpec} {s : String} (h : n.name = some s) :
    n.to_xattr = Except.ok ("name", s) := by
  unfold NameSpec.to_xattr
  rw [h]

theorem str_of_name {n : NameSpec} {s : String} (h : n.name = some s) :
    n.str = Except.ok s := by
  unfold NameSpec.str
  rw [h]

theorem condition_to_xelt_tag {c : ConditionSpec} {t : String} {e : Xelt}
    (h : ConditionSpec.to_xelt c t = Except.ok e) : e.tag = t := by
  unfold ConditionSpec.to_xelt at h
  cases hi : c.item.str with
  | error _ => rw [hi, except_bind_error] at h; cases h
  | ok i =>
    rw [hi, except_bind_ok] at h
    cases hs : c.state.str with
    | error _ => rw [hs, except_bind_error] at h; cases h
    | ok s =>
      rw [hs, except_bind_ok] at h
      unfold etree_Element at h
      cases hv : validXmlTag t with
      | true =>
        simp only [hv, if_true] at h
        cases h
        rfl
      | false =>
        simp only [hv, Bool.false_eq_true, if_false] at h
        cases h

theorem exceptMap_ok_forall {α β : Type} {f : α → Except Err β} {P : β → Prop}
    (hf : ∀ a b, f a = Except.ok b → P b) :
    ∀ (as : List α) (bs : List β), exceptMap f as = Except.ok bs → ∀ b ∈ bs, P b := by
  intro as
  induction as with
  | nil =>
    intro bs h b hb
    unfold exceptMap at h
    cases h
    cases hb
  | cons a as ih =>
    intro bs h b hb
    unfold exceptMap at h
    cases ha : f a with
    | error _ => rw [ha, except_bind_error] at h; cases h
    | ok b0 =>
      rw [ha, except_bind_ok] at h
      cases hm : exceptMap f as with
      | error _ => rw [hm, except_bind_error] at h; cases h
      | ok bs0 =>
        rw [hm, except_bind_ok] at h
        cases h
        cases hb with
        | head => exact hf a b ha
        | tail _ hb0 => exact ih bs0 hm b hb0

theorem find?_tag_none {cs : List Xelt} {tg : String}
    (h : ∀ c ∈ cs, c.tag ≠ tg) :
    cs.find? (fun c => c.tag == tg) = none := by
  rw [List.find?_eq_none]
  intro c hc
  simp [h c hc]

theorem do_lookup_eq_none {elt : Xelt} :
    ∀ {ls : List Lookup}, (∀ l ∈ ls, l elt = none) → do_lookup elt ls = none := by
  intro ls
  induction ls with
  | nil => intro _; rfl
  | cons l ls ih =>
    intro h
    unfold do_lookup
    rw [h l (List.mem_cons_self l ls)]
    exact ih (fun l0 hl0 => h l0 (List.mem_cons_of_mem l hl0))


/- ## Claim theorems -/

/-- Claim C2, counterexample: for the candidate chain
["abc", "12", None] the integer resolver does not return 12 — the
unparsable first candidate raises an uncaught `ValueError` (only
`TypeError`, i.e. a None candidate, is caught), aborting the chain. -/
theorem int_lookup_counterexample :
    do_int_lookup dummyElt [fun _ => some "abc", fun _ => some "12", fun _ => none] =
      Except.error Err.valueError ∧
    Except.error Err.valueError ≠ (Except.ok (some 12) : Except Err (Option Int)) := by
  exact ⟨by decide, by decide⟩

/-- Claim C2, amended: the integer resolver tries the candidates in
priority order and a None candidate is skipped; but the first non-None
candidate decides the outcome: if it parses, its value is returned, and if
it does not parse the `ValueError` escapes and aborts the chain (it is not
skipped).  Only when every candidate is None does the resolver return
None. -/
theorem int_lookup_amended (elt : Xelt) (ls : List Lookup) :
    do_int_lookup elt ls =
      match do_lookup elt ls with
      | none => Except.ok none
      | some s =>
        match pyIntParse s with
        | some n => Except.ok (some n)
        | none => Except.error Err.valueError :=
  do_int_lookup_char elt ls

/-- Claim C6, counterexample: the adjacency reference
`<room>Kitchen</room>` does not decode to the empty identity — decode
raises an uncaught `ValueError`, because the self-text feeds
`do_int_lookup` and "Kitchen" fails to parse as an integer with only
`TypeError` caught. -/
theorem adjacency_counterexample :
    RoomSpec.from_xelt (Xelt.mk "room" [] [] (some "Kitchen")) =
      Except.error Err.valueError ∧
    Except.error Err.valueError ≠
      (Except.ok (⟨none, none⟩ : NameSpec) : Except Err NameSpec) := by
  exact ⟨by decide, by decide⟩

/-- Claim C6, amended: for an adjacency reference node whose own text is a
non-numeric string, decode via the adjacency profile raises a `ValueError`
at decode time (the self-text feeds only the integer chain, where a present
unparsable candidate escapes); the fully empty identity arises only when
the node has no text at all and carries no "room" attribute or child. -/
theorem adjacency_amended :
    (∀ (elt : Xelt) (t : String), elt.text = some t → pyIntParse t = none →
       RoomSpec.from_xelt elt = Except.error Err.valueError) ∧
    (∀ elt : Xelt, elt.text = none → attr_lookup "room" elt = none →
       elt_lookup "room" elt = none →
       RoomSpec.from_xelt elt = Except.ok ⟨none, none⟩) := by
  constructor
  · intro elt t ht hp
    unfold RoomSpec.from_xelt NameSpec.from_xelt
    simp [do_int_lookup, self_lookup, ht, hp, except_bind_error]
  · intro elt ht ha he
    unfold RoomSpec.from_xelt NameSpec.from_xelt
    simp [do_int_lookup, self_lookup, ht, except_bind_ok, do_lookup, custom_search, ha, he]

/-- Claim C6, witness for `adjacency_amended` at `<room>Kitchen</room>`
and at a textless, attribute-free reference node. -/
theorem adjacency_amended_witness :
    RoomSpec.from_xelt (Xelt.mk "room" [] [] (some "Kitchen")) =
      Except.error Err.valueError ∧
    RoomSpec.from_xelt (Xelt.mk "room" [] [] none) = Except.ok ⟨none, none⟩ :=
  ⟨adjacency_amended.1 (Xelt.mk "room" [] [] (some "Kitchen")) "Kitchen" rfl (by decide),
   adjacency_amended.2 (Xelt.mk "room" [] [] none) rfl rfl rfl⟩

/-- Claim C3: identity rendering returns the name when set, else the
decimal string of the id when set, and otherwise fails with the
missing-identity error; attribute encoding returns ("name", name) when the
name is set, else ("id", str(id)), and otherwise fails the same way — both
with name-before-id priority.  Construction (`NameSpec.mk`) is total, so
the failure can only occur at rendering time. -/
theorem identity_rendering_contract :
    (∀ (n : NameSpec) (s : String), n.name = some s →
       n.str = Except.ok s ∧ n.to_xattr = Except.ok ("name", s)) ∧
    (∀ (n : NameSpec) (i : Int), n.name = none → n.id = some i →
       n.str = Except.ok (toString i) ∧ n.to_xattr = Except.ok ("id", toString i)) ∧
    (∀ n : NameSpec, n.name = none → n.id = none →
       n.str = Except.error Err.missingIdentity ∧
       n.to_xattr = Except.error Err.missingIdentity) := by
  refine ⟨?_, ?_, ?_⟩
  · intro n s h
    exact ⟨str_of_name h, to_xattr_of_name h⟩
  · intro n i hn hi
    unfold NameSpec.str NameSpec.to_xattr
    rw [hn, hi]
    exact ⟨rfl, rfl⟩
  · intro n hn hi
    unfold NameSpec.str NameSpec.to_xattr
    rw [hn, hi]
    exact ⟨rfl, rfl⟩

/-- Claim C3, witness for `identity_rendering_contract` at concrete
identities. -/
theorem identity_rendering_contract_witness :
    NameSpec.str ⟨some 7, some "Sword"⟩ = Except.ok "Sword" ∧
    NameSpec.to_xattr ⟨some 7, none⟩ = Except.ok ("id", toString (7 : Int)) ∧
    NameSpec.str ⟨none, none⟩ = Except.error Err.missingIdentity :=
  ⟨(identity_rendering_contract.1 ⟨some 7, some "Sword"⟩ "Sword" rfl).1,
   (identity_rendering_contract.2.1 ⟨some 7, none⟩ 7 rfl rfl).2,
   (identity_rendering_contract.2.2 ⟨none, none⟩ rfl rfl).1⟩

/-- Claim C9: on a successfully decoded State node, the gettable field is
the Python truthiness (non-emptiness) of whatever string the
attribute-or-child "gettable" chain produced — so the text "false" decodes
to true and the empty string to false — and is None when the chain found
nothing. -/
theorem gettable_truthiness :
    ∀ (elt : Xelt) (idx : Option Int) (st : State),
      State.from_xelt elt idx = Except.ok st →
      st.gettable = (do_lookup elt (attr_elt "gettable")).map (fun s => s != "") := by
  intro elt idx st h
  unfold State.from_xelt at h
  cases hn : NameSpec.from_xelt elt idsearch_default namesearch_default with
  | error e => rw [hn, except_bind_error] at h; cases h
  | ok nm =>
    rw [hn, except_bind_ok] at h
    cases hp : elt.find "prerequisites" with
    | some p =>
      cases hA : elt.find "actions" with
      | some a => simp only [hp, hA, except_bind_error] at h; cases h
      | none =>
        simp only [hp, hA, except_bind_ok] at h
        cases hm : exceptMap ConditionSpec.from_xelt p.children with
        | error e => rw [hm, except_bind_error] at h; cases h
        | ok cs => rw [hm, except_bind_ok] at h; cases h; rfl
    | none =>
      cases hA : elt.find "actions" with
      | some a =>
        simp only [hp, hA, except_bind_ok] at h
        cases hm : exceptMap ConditionSpec.from_xelt a.children with
        | error e => rw [hm, except_bind_error] at h; cases h
        | ok cs => rw [hm, except_bind_ok] at h; cases h; rfl
      | none => simp only [hp, hA, except_bind_error] at h; cases h

/-- Claim C9, witness for `gettable_truthiness`: a state carrying
`gettable="false"` decodes with gettable = true, and one with an empty
`<gettable/>` child decodes with gettable = false. -/
theorem gettable_truthiness_witness :
    (⟨⟨some 0, none⟩, none, none, [], none, some true⟩ : State).gettable =
      (do_lookup
        (Xelt.mk "state" [("gettable", "false")] [Xelt.mk "prerequisites" [] [] none] none)
        (attr_elt "gettable")).map (fun s => s != "") ∧
    (⟨⟨some 0, none⟩, none, none, [], none, some false⟩ : State).gettable =
      (do_lookup
        (Xelt.mk "state" [] [Xelt.mk "prerequisites" [] [] none, Xelt.mk "gettable" [] [] none] none)
        (attr_elt "gettable")).map (fun s => s != "") :=
  ⟨gettable_truthiness
     (Xelt.mk "state" [("gettable", "false")] [Xelt.mk "prerequisites" [] [] none] none)
     (some 0) ⟨⟨some 0, none⟩, none, none, [], none, some true⟩ (by decide),
   gettable_truthiness
     (Xelt.mk "state" [] [Xelt.mk "prerequisites" [] [] none, Xelt.mk "gettable" [] [] none] none)
     (some 0) ⟨⟨some 0, none⟩, none, none, [], none, some false⟩ (by decide)⟩

/-- Claim C5: once the identity of a State node resolves, decode fails
with the ambiguous-conditions error when both a "prerequisites" and an
"actions" child container are present and with the missing-conditions
error when neither is; and every successful decode took its conditions
from the single present container, decoding its children in document
order. -/
theorem condition_container_invariant :
    (∀ (elt : Xelt) (idx : Option Int) (nm : NameSpec),
       NameSpec.from_xelt elt idsearch_default namesearch_default = Except.ok nm →
       (((elt.find "prerequisites").isSome ∧ (elt.find "actions").isSome) →
          State.from_xelt elt idx = Except.error Err.ambiguousConditions) ∧
       ((elt.find "prerequisites" = none ∧ elt.find "actions" = none) →
          State.from_xelt elt idx = Except.error Err.missingConditions)) ∧
    (∀ (elt : Xelt) (idx : Option Int) (st : State),
       State.from_xelt elt idx = Except.ok st →
       ∃ c : Xelt,
         ((elt.find "prerequisites" = some c ∧ elt.find "actions" = none) ∨
          (elt.find "prerequisites" = none ∧ elt.find "actions" = some c)) ∧
         exceptMap ConditionSpec.from_xelt c.children = Except.ok st.conditions) := by
  constructor
  · intro elt idx nm hn
    constructor
    · intro hboth
      obtain ⟨hp, hA⟩ := hboth
      obtain ⟨p, hp⟩ := Option.isSome_iff_exists.mp hp
      obtain ⟨a, hA⟩ := Option.isSome_iff_exists.mp hA
      unfold State.from_xelt
      simp only [hn, except_bind_ok, hp, hA, except_bind_error]
    · intro hnone
      obtain ⟨hp, hA⟩ := hnone
      unfold State.from_xelt
      simp only [hn, except_bind_ok, hp, hA, except_bind_error]
  · intro elt idx st h
    unfold State.from_xelt at h
    cases hn : NameSpec.from_xelt elt idsearch_default namesearch_default with
    | error e => rw [hn, except_bind_error] at h; cases h
    | ok nm =>
      rw [hn, except_bind_ok] at h
      cases hp : elt.find "prerequisites" with
      | some p =>
        cases hA : elt.find "actions" with
        | some a => simp only [hp, hA, except_bind_error] at h; cases h
        | none =>
          simp only [hp, hA, except_bind_ok] at h
          cases hm : exceptMap ConditionSpec.from_xelt p.children with
          | error e => rw [hm, except_bind_error] at h; cases h
          | ok cs =>
            rw [hm, except_bind_ok] at h
            cases h
            exact ⟨p, Or.inl ⟨rfl, rfl⟩, hm⟩

      | none =>
        cases hA : elt.find "actions" with
        | some a =>
          simp only [hp, hA, except_bind_ok] at h
          cases hm : exceptMap ConditionSpec.from_xelt a.children with
          | error e => rw [hm, except_bind_error] at h; cases h
          | ok cs =>
            rw [hm, except_bind_ok] at h
            cases h
            exact ⟨a, Or.inr ⟨rfl, rfl⟩, hm⟩
        | none => simp only [hp, hA, except_bind_error] at h; cases h

/-- Claim C5, witness for `condition_container_invariant` at a node with
both containers and at a node with neither. -/
theorem condition_container_invariant_witness :
    State.from_xelt
      (Xelt.mk "state" []
        [Xelt.mk "prerequisites" [] [] none, Xelt.mk "actions" [] [] none] none)
      none = Except.error Err.ambiguousConditions ∧
    State.from_xelt (Xelt.mk "state" [] [] none) none =
      Except.error Err.missingConditions :=
  ⟨(condition_container_invariant.1
      (Xelt.mk "state" []
        [Xelt.mk "prerequisites" [] [] none, Xelt.mk "actions" [] [] none] none)
      none ⟨none, none⟩ (by decide)).1 ⟨by decide, by decide⟩,
   (condition_container_invariant.1 (Xelt.mk "state" [] [] none)
      none ⟨none, none⟩ (by decide)).2 ⟨by decide, by decide⟩⟩

/-- Claim C10: a SpecialResponse whose image or command field is None
cannot be encoded — the encoder passes the field straight to the element
builder, which rejects a None attribute value — although decode produces
exactly those None fields whenever the source node lacks the
corresponding attribute or child. -/
theorem sr_encode_requires_image_command :
    (∀ sr : SpecialResponse, sr.image = none ∨ sr.command = none →
       (SpecialResponse.to_xelt sr).isOk = false) ∧
    (∀ (elt : Xelt) (sr : SpecialResponse),
       SpecialResponse.from_xelt elt = Except.ok sr →
       sr.image = do_lookup elt (attr_elt "image") ∧
       sr.command = do_lookup elt (attr_elt "command")) := by
  constructor
  · intro sr hnull
    unfold SpecialResponse.to_xelt
    cases ha : exceptMap (fun c => ConditionSpec.to_xelt c "prereq") sr.actions with
    | error e => simp only [ha, except_bind_error]; rfl
    | ok acts =>
      simp only [ha, except_bind_ok]
      cases hi : sr.item.str with
      | error e => simp only [hi, except_bind_error]; rfl
      | ok i =>
        simp only [hi, except_bind_ok]
        cases hs : sr.item_state.str with
        | error e => simp only [hs, except_bind_error]; rfl
        | ok s =>
          simp only [hs, except_bind_ok]
          cases him : sr.image with
          | none => simp only [except_bind_error]; rfl
          | some v =>
            cases hcm : sr.command with
            | none => simp only [except_bind_ok, except_bind_error]; rfl
            | some w =>
              exfalso
              cases hnull with
              | inl h0 => rw [him] at h0; cases h0
              | inr h0 => rw [hcm] at h0; cases h0
  · intro elt sr h
    unfold SpecialResponse.from_xelt at h
    cases hix : do_int_lookup elt [elt_lookup "itemindex"] with
    | error e => rw [hix, except_bind_error] at h; cases h
    | ok ix =>
      rw [hix, except_bind_ok] at h
      cases hit : sr_item_resolve elt ix with
      | error e => rw [hit, except_bind_error] at h; cases h
      | ok item =>
        rw [hit, except_bind_ok] at h
        cases hst : NameSpec.from_xelt elt
            [attr_lookup "state", elt_lookup "state",
             attr_lookup "itemstate", elt_lookup "itemstate"]
            (custom_search "state") with
        | error e => rw [hst, except_bind_error] at h; cases h
        | ok ist =>
          rw [hst, except_bind_ok] at h
          cases hac : findContainer elt "actions" with
          | error e => rw [hac, except_bind_error] at h; cases h
          | ok actsC =>
            rw [hac, except_bind_ok] at h
            cases hm : exceptMap ConditionSpec.from_xelt actsC.children with
            | error e => rw [hm, except_bind_error] at h; cases h
            | ok acts =>
              rw [hm, except_bind_ok] at h
              cases h
              exact ⟨rfl, rfl⟩

/-- Claim C10, witness for `sr_encode_requires_image_command`: a decoded
special response with no image attribute or child has image = None, and
encoding a special response whose image is None fails. -/
theorem sr_encode_requires_image_command_witness :
    (SpecialResponse.to_xelt
      ⟨⟨some 1, none⟩, none, none, none, ⟨some 2, none⟩, []⟩).isOk = false ∧
    (⟨⟨none, none⟩, none, none, none, ⟨none, none⟩, []⟩ : SpecialResponse).image =
      do_lookup (Xelt.mk "specialresponse" [] [Xelt.mk "actions" [] [] none] none)
        (attr_elt "image") :=
  ⟨sr_encode_requires_image_command.1
     ⟨⟨some 1, none⟩, none, none, none, ⟨some 2, none⟩, []⟩ (Or.inl rfl),
   (sr_encode_requires_image_command.2
     (Xelt.mk "specialresponse" [] [Xelt.mk "actions" [] [] none] none)
     ⟨⟨none, none⟩, none, none, none, ⟨none, none⟩, []⟩ (by decide)).1⟩

/-- Claim C1, counterexample: for a concrete document whose entities all
have non-numeric, whitespace-free names, `decode(encode(decode(doc)))`
does not reproduce the identities — with the flag off it fails with the
missing-conditions error (the encoder emits no prerequisites/actions
container), and with the flag on the encode step itself fails. -/
theorem roundtrip_counterexample :
    (House.from_xelt docC).isOk = true ∧
    ((House.from_xelt docC).bind (House.to_xelt false)).bind House.from_xelt =
      Except.error Err.missingConditions ∧
    ((House.from_xelt docC).bind (House.to_xelt true)).isOk = false :=
  ⟨by decide, by decide, by decide⟩


/-- Re-decoding the canonical encoded shape of a state — generic tag
"state", attributes name/image plus possibly gettable, a description child
followed by bare "prereq" condition elements and no prerequisites/actions
container — always fails with the missing-conditions error. -/
theorem encoded_state_redecode (s iv d : String) (gattrs : List (String × String))
    (hg : ∀ p ∈ gattrs, p.1 = "gettable")
    (conds : List Xelt) (htags : ∀ e ∈ conds, e.tag = "prereq") (idx : Option Int) :
    State.from_xelt
      (Xelt.mk "state" (("name", s) :: ("image", iv) :: gattrs)
        (Xelt.mk "description" [] [] (some d) :: conds) none) idx =
      Except.error Err.missingConditions := by
  have hmem : ∀ tg : String, "description" ≠ tg → "prereq" ≠ tg →
      ∀ c ∈ (Xelt.mk "description" [] [] (some d) :: conds), c.tag ≠ tg := by
    intro tg h1 h2 c hcm
    rcases List.mem_cons.mp hcm with rfl | hcm0
    · exact h1
    · rw [htags c hcm0]; exact h2
  have hattr : ∀ tg : String, "name" ≠ tg → "image" ≠ tg → "gettable" ≠ tg →
      (("name", s) :: ("image", iv) :: gattrs).find? (fun p => p.1 == tg) = none := by
    intro tg h1 h2 h3
    rw [List.find?_eq_none]
    intro p hp
    rcases List.mem_cons.mp hp with rfl | hp1
    · simp [h1]
    · rcases List.mem_cons.mp hp1 with rfl | hp2
      · simp [h2]
      · rw [show p.1 = "gettable" from hg p hp2]
        simp [h3]
  have hfid : ((Xelt.mk "description" [] [] (some d) :: conds).find?
      (fun c => c.tag == "id")) = none :=
    find?_tag_none (hmem "id" (by decide) (by decide))
  have hfindex : ((Xelt.mk "description" [] [] (some d) :: conds).find?
      (fun c => c.tag == "index")) = none :=
    find?_tag_none (hmem "index" (by decide) (by decide))
  have hdl : do_lookup
      (Xelt.mk "state" (("name", s) :: ("image", iv) :: gattrs)
        (Xelt.mk "description" [] [] (some d) :: conds) none)
      idsearch_default = none := by
    apply do_lookup_eq_none
    intro l hl
    simp only [idsearch_default, List.mem_cons, List.not_mem_nil, or_false] at hl
    rcases hl with rfl | rfl | rfl | rfl
    · show (Xelt.get _ "id") = none
      unfold Xelt.get
      show ((("name", s) :: ("image", iv) :: gattrs).find?
        (fun p => p.1 == "id")).map Prod.snd = none
      rw [hattr "id" (by decide) (by decide) (by decide)]
      rfl
    · show (Xelt.findtext _ "id") = none
      unfold Xelt.findtext Xelt.find
      show ((Xelt.mk "description" [] [] (some d) :: conds).find?
        (fun c => c.tag == "id")).map _ = none
      rw [hfid]
      rfl
    · show (Xelt.get _ "index") = none
      unfold Xelt.get
      show ((("name", s) :: ("image", iv) :: gattrs).find?
        (fun p => p.1 == "index")).map Prod.snd = none
      rw [hattr "index" (by decide) (by decide) (by decide)]
      rfl
    · show (Xelt.findtext _ "index") = none
      unfold Xelt.findtext Xelt.find
      show ((Xelt.mk "description" [] [] (some d) :: conds).find?
        (fun c => c.tag == "index")).map _ = none
      rw [hfindex]
      rfl
  have hns : NameSpec.from_xelt
      (Xelt.mk "state" (("name", s) :: ("image", iv) :: gattrs)
        (Xelt.mk "description" [] [] (some d) :: conds) none)
      idsearch_default namesearch_default = Except.ok ⟨none, some s⟩ := by
    unfold NameSpec.from_xelt
    rw [do_int_lookup_char, hdl]
    rfl
  have hfp : (Xelt.mk "state" (("name", s) :: ("image", iv) :: gattrs)
      (Xelt.mk "description" [] [] (some d) :: conds) none).find
      "prerequisites" = none :=
    find?_tag_none (hmem "prerequisites" (by decide) (by decide))
  have hfa : (Xelt.mk "state" (("name", s) :: ("image", iv) :: gattrs)
      (Xelt.mk "description" [] [] (some d) :: conds) none).find
      "actions" = none :=
    find?_tag_none (hmem "actions" (by decide) (by decide))
  unfold State.from_xelt
  rw [hns, except_bind_ok]
  simp only [hfp, hfa, except_bind_error]

/-- Claim C1, amended: the round trip fails for every document containing
a state.  Encoding a state never re-emits the "prerequisites"/"actions"
container read by decode (the condition elements are appended bare, a
consequence of extending the element list with the built container's
children), so re-decoding an encoded state fails with the
missing-conditions error; and with the tag-identity flag enabled, encoding
a state whose name is set and space-free fails outright with a type error,
because the identity object rather than its name string is passed as the
element tag. -/
theorem roundtrip_amended :
    (∀ (st : State) (s : String) (x : Xelt) (idx : Option Int),
       st.name.name = some s → State.to_xelt false st = Except.ok x →
       State.from_xelt x idx = Except.error Err.missingConditions) ∧
    (∀ (st : State) (s : String), st.name.name = some s →
       s.toList.contains ' ' = false →
       State.to_xelt true st = Except.error Err.typeError) := by
  constructor
  · intro st s x idx hname henc
    unfold State.to_xelt at henc
    simp only [hname, Bool.false_and, Bool.false_eq_true, if_false,
      to_xattr_of_name hname, except_bind_ok] at henc
    cases hd : st.description with
    | none => simp only [hd, except_bind_error] at henc; cases henc
    | some d =>
      simp only [hd, except_bind_ok] at henc
      cases hc : exceptMap (fun c => ConditionSpec.to_xelt c "prereq") st.conditions with
      | error e => simp only [hc, except_bind_error] at henc; cases henc
      | ok conds =>
        simp only [hc, except_bind_ok] at henc
        have htags : ∀ e ∈ conds, e.tag = "prereq" :=
          exceptMap_ok_forall (fun _ _ he => condition_to_xelt_tag he)
            st.conditions conds hc
        cases henc
        exact encoded_state_redecode s
          (match st.image with | some i => i | none => "") d
          (match st.gettable with | some b => [("gettable", pyStrBool b)] | none => [])
          (by
            cases st.gettable with
            | none => intro p hp; cases hp
            | some b =>
              intro p hp
              rw [List.mem_singleton.mp hp])
          conds htags idx
  · intro st s hname hsp
    unfold State.to_xelt
    simp only [hname, hsp, Bool.not_false, Bool.and_true, Bool.true_and, if_true,
      except_bind_error]
/-- Claim C1, witness for `roundtrip_amended`: decoding the encoded form
of a concrete well-named state fails with the missing-conditions error,
and encoding it with the flag on fails with a type error. -/
theorem roundtrip_amended_witness :
    State.from_xelt
      (Xelt.mk "state" [("name", "Shiny"), ("image", "")]
        [Xelt.mk "description" [] [] (some "d")] none) none =
      Except.error Err.missingConditions ∧
    State.to_xelt true ⟨⟨some 0, some "Shiny"⟩, none, some "d", [], none, none⟩ =
      Except.error Err.typeError :=
  ⟨roundtrip_amended.1 ⟨⟨some 0, some "Shiny"⟩, none, some "d", [], none, none⟩ "Shiny"
      (Xelt.mk "state" [("name", "Shiny"), ("image", "")]
        [Xelt.mk "description" [] [] (some "d")] none) none rfl (by decide),
   roundtrip_amended.2 ⟨⟨some 0, some "Shiny"⟩, none, some "d", [], none, none⟩ "Shiny"
      rfl (by decide)⟩

/-- Claim C4, counterexample: a Room whose name is the purely numeric
string "12" fails to serialize under the flag — the custom-tag branch is
taken (only a space check, no numeric exclusion) and the element library
rejects "12" as an XML tag name with a `ValueError` — where the claimed
policy requires a successful generic "room" element, and promises that no
entity fails to serialize on account of its name's shape. -/
theorem tag_policy_counterexample :
    Room.to_xelt true ⟨⟨none, some "12"⟩, [], [], []⟩ =
      Except.error Err.valueError ∧
    pyIntParse "12" = some 12 :=
  ⟨by decide, by decide⟩

/-- Claim C4, amended: the tag-selection policy is not uniform across the
entity kinds, and serialization can fail on a name's shape.  Item: custom
tag exactly when the flag is on, the name does not parse as an integer
and it contains no space; numeric or space-containing names fall back to
the generic "item" tag with the identity attribute, but under the flag a
missing name raises a type error, and a space-free non-numeric name that
is not a valid XML name (for example one containing a tab) raises a
`ValueError` from the tag validator.  State: the generic "state" tag is
the only successful shape; the custom branch (flag on, name set,
space-free, numericness not checked) always fails with a type error
because the identity object is passed as the tag.  Room: the policy is
applied to the rendered identity string (name, else the decimal id) with
only a space check and no numeric exclusion, and since an XML name cannot
start with a digit, a numeric name — or a nameless room's decimal id —
makes encode fail with a `ValueError` instead of falling back to the
generic tag. -/
theorem tag_policy_amended :
    (∀ (u : Bool) (nm : NameSpec) (sts : List State) (x : Xelt),
       Item.to_xelt u ⟨nm, sts⟩ = Except.ok x →
       x.tag =
         (if u && !(NameSpec.intname nm) then
            match nm.name with
            | some s => if !(s.toList.contains ' ') then s else "item"
            | none => "item"
          else "item")) ∧
    (∀ (nm : NameSpec) (sts : List State),
       nm.name = none → Item.to_xelt true ⟨nm, sts⟩ = Except.error Err.typeError) ∧
    (∀ (nm : NameSpec) (sts : List State) (s : String),
       nm.name = some s → NameSpec.intname nm = false →
       s.toList.contains ' ' = false → validXmlTag s = false →
       Item.to_xelt true ⟨nm, sts⟩ = Except.error Err.valueError) ∧
    (∀ (u : Bool) (st : State) (x : Xelt),
       State.to_xelt u st = Except.ok x → x.tag = "state") ∧
    (∀ (st : State) (s : String), st.name.name = some s →
       s.toList.contains ' ' = false →
       State.to_xelt true st = Except.error Err.typeError) ∧
    (∀ (u : Bool) (r : Room) (x : Xelt) (disp : String),
       Room.to_xelt u r = Except.ok x → r.name.str = Except.ok disp →
       x.tag = (if u && !(disp.toList.contains ' ') then disp else "room")) ∧
    (∀ (r : Room) (disp : String),
       r.name.str = Except.ok disp → disp.toList.contains ' ' = false →
       validXmlTag disp = false →
       Room.to_xelt true r = Except.error Err.valueError) := by
  refine ⟨?_, ?_, ?_, ?_, ?_, ?_, ?_⟩
  · intro u nm sts x h
    unfold Item.to_xelt at h
    cases hcnd : (u && !(NameSpec.intname nm)) with
    | false =>
      simp only [hcnd, Bool.false_eq_true, if_false] at h
      cases hkv : nm.to_xattr with
      | error e => simp only [hkv, except_bind_error] at h; cases h
      | ok kv =>
        simp only [hkv, except_bind_ok] at h
        cases hsts : exceptMap (State.to_xelt u) sts with
        | error e => simp only [hsts, except_bind_error] at h; cases h
        | ok ss =>
          simp only [hsts, except_bind_ok] at h
          cases h
          rfl
    | true =>
      simp only [hcnd, if_true] at h
      cases hname : nm.name with
      | none => simp only [hname, except_bind_error] at h; cases h
      | some s =>
        simp only [hname] at h
        cases hsp : s.toList.contains ' ' with
        | false =>
          simp only [hsp, Bool.not_false, if_true] at h
          unfold etree_Element at h
          cases hv : validXmlTag s with
          | false =>
            simp only [hv, Bool.false_eq_true, if_false, except_bind_error] at h
            cases h
          | true =>
            simp only [hv, if_true, except_bind_ok] at h
            cases hsts : exceptMap (State.to_xelt u) sts with
            | error e => simp only [hsts, except_bind_error] at h; cases h
            | ok ss =>
              simp only [hsts, except_bind_ok] at h
              cases h
              have hm : ¬ (' ' ∈ s.data) := by simpa using hsp
              simp [Xelt.tag, hm]
        | true =>
          simp only [hsp, Bool.not_true, if_false] at h
          cases hkv : nm.to_xattr with
          | error e => simp only [hkv, except_bind_error] at h; cases h
          | ok kv =>
            simp only [hkv, except_bind_ok] at h
            cases hsts : exceptMap (State.to_xelt u) sts with
            | error e => simp only [hsts, except_bind_error] at h; cases h
            | ok ss =>
              simp only [hsts, except_bind_ok] at h
              cases h
              have hm : ' ' ∈ s.data := by simpa using hsp
              simp [Xelt.tag, hm]
  · intro nm sts hname
    unfold Item.to_xelt
    have hint : NameSpec.intname nm = false := by
      unfold NameSpec.intname
      rw [hname]
    simp only [hint, hname, Bool.not_false, Bool.and_true, if_true, except_bind_error]
  · intro nm sts s hname hint hsp hv
    unfold Item.to_xelt etree_Element
    simp only [hint, hname, hsp, hv, Bool.not_false, Bool.and_true, if_true,
      Bool.false_eq_true, if_false, except_bind_error]
  · intro u st x h
    unfold State.to_xelt at h
    cases hname : st.name.name with
    | some s =>
      simp only [hname] at h
      cases hcnd : (u && !(s.toList.contains ' ')) with
      | true => simp only [hcnd, if_true, except_bind_error] at h; cases h
      | false =>
        simp only [hcnd, Bool.false_eq_true, if_false] at h
        cases hkv : st.name.to_xattr with
        | error e => simp only [hkv, except_bind_error] at h; cases h
        | ok kv =>
          simp only [hkv, except_bind_ok] at h
          cases hd : st.description with
          | none => simp only [hd, except_bind_error] at h; cases h
          | some d =>
            simp only [hd, except_bind_ok] at h
            cases hcs : exceptMap (fun c => ConditionSpec.to_xelt c "prereq")
                st.conditions with
            | error e => simp only [hcs, except_bind_error] at h; cases h
            | ok cs =>
              simp only [hcs, except_bind_ok] at h
              cases h
              rfl
    | none =>
      simp only [hname] at h
      cases hkv : st.name.to_xattr with
      | error e => simp only [hkv, except_bind_error] at h; cases h
      | ok kv =>
        simp only [hkv, except_bind_ok] at h
        cases hd : st.description with
        | none => simp only [hd, except_bind_error] at h; cases h
        | some d =>
          simp only [hd, except_bind_ok] at h
          cases hcs : exceptMap (fun c => ConditionSpec.to_xelt c "prereq")
              st.conditions with
          | error e => simp only [hcs, except_bind_error] at h; cases h
          | ok cs =>
            simp only [hcs, except_bind_ok] at h
            cases h
            rfl
  · intro st s hname hsp
    unfold State.to_xelt
    simp only [hname, hsp, Bool.not_false, Bool.and_true, Bool.true_and, if_true,
      except_bind_error]
  · intro u r x disp h hdisp
    unfold Room.to_xelt at h
    rw [hdisp, except_bind_ok] at h
    cases hcnd : (u && !(disp.toList.contains ' ')) with
    | true =>
      simp only [hcnd, if_true] at h
      unfold etree_Element at h
      cases hv : validXmlTag disp with
      | false =>
        simp only [hv, Bool.false_eq_true, if_false, except_bind_error] at h
        cases h
      | true =>
        simp only [hv, if_true, except_bind_ok] at h
        cases ha : exceptMap (RoomSpec.to_xelt u) r.adjacent_rooms with
        | error e => simp only [ha, except_bind_error] at h; cases h
        | ok adjs =>
          simp only [ha, except_bind_ok] at h
          cases hs : exceptMap (State.to_xelt u) r.states with
          | error e => simp only [hs, except_bind_error] at h; cases h
          | ok ss =>
            simp only [hs, except_bind_ok] at h
            cases hi : exceptMap (Item.to_xelt u) r.items with
            | error e => simp only [hi, except_bind_error] at h; cases h
            | ok its =>
              simp only [hi, except_bind_ok] at h
              cases h
              rfl
    | false =>
      simp only [hcnd, Bool.false_eq_true, if_false, except_bind_ok] at h
      cases ha : exceptMap (RoomSpec.to_xelt u) r.adjacent_rooms with
      | error e => simp only [ha, except_bind_error] at h; cases h
      | ok adjs =>
        simp only [ha, except_bind_ok] at h
        cases hs : exceptMap (State.to_xelt u) r.states with
        | error e => simp only [hs, except_bind_error] at h; cases h
        | ok ss =>
          simp only [hs, except_bind_ok] at h
          cases hi : exceptMap (Item.to_xelt u) r.items with
          | error e => simp only [hi, except_bind_error] at h; cases h
          | ok its =>
            simp only [hi, except_bind_ok] at h
            cases h
            rfl
  · intro r disp hdisp hsp hv
    unfold Room.to_xelt etree_Element
    rw [hdisp, except_bind_ok]
    simp only [hsp, hv, Bool.not_false, Bool.true_and, if_true,
      Bool.false_eq_true, if_false, except_bind_error]

/-- Claim C4, witness for `tag_policy_amended`: an Item named "Torch"
takes the custom tag under the flag; a nameless Item under the flag fails
with a type error; an Item whose name contains a tab (space-free but not
a valid XML name) fails with a `ValueError`; and a Room whose name starts
with a digit fails with a `ValueError`. -/
theorem tag_policy_amended_witness :
    (Xelt.mk "Torch" [] [Xelt.mk "states" [] [] none] none).tag =
      (if true && !(NameSpec.intname ⟨none, some "Torch"⟩) then
         match (⟨none, some "Torch"⟩ : NameSpec).name with
         | some s => if !(s.toList.contains ' ') then s else "item"
         | none => "item"
       else "item") ∧
    Item.to_xelt true ⟨⟨some 3, none⟩, []⟩ = Except.error Err.typeError ∧
    Item.to_xelt true ⟨⟨none, some "a\tb"⟩, []⟩ = Except.error Err.valueError ∧
    Room.to_xelt true ⟨⟨none, some "2x"⟩, [], [], []⟩ = Except.error Err.valueError :=
  ⟨tag_policy_amended.1 true ⟨none, some "Torch"⟩ []
     (Xelt.mk "Torch" [] [Xelt.mk "states" [] [] none] none) (by decide),
   tag_policy_amended.2.1 ⟨some 3, none⟩ [] rfl,
   tag_policy_amended.2.2.1 ⟨none, some "a\tb"⟩ [] "a\tb" rfl (by decide)
     (by decide) (by decide),
   tag_policy_amended.2.2.2.2.2.2 ⟨⟨none, some "2x"⟩, [], [], []⟩ "2x" rfl
     (by decide) (by decide)⟩


/-- Claim C7, counterexample: a condition node carrying the reference in
the child-element form `<prereq><state>5</state></prereq>` decodes with a
state id of None — the state id search is the override
[attr "state", attr "itemstate", child "itemstate"], which omits the
keyed profile's child "state" entry; the keyed profile itself would have
resolved the id 5. -/
theorem keyed_reference_counterexample :
    ConditionSpec.from_xelt
      (Xelt.mk "prereq" [] [Xelt.mk "state" [] [] (some "5")] none) =
      Except.ok ⟨⟨none, none⟩, ⟨none, some "5"⟩⟩ ∧
    NameSpec.from_xelt (Xelt.mk "prereq" [] [Xelt.mk "state" [] [] (some "5")] none)
      (custom_search "state") (custom_search "state") =
      Except.ok ⟨some 5, some "5"⟩ :=
  ⟨by decide, by decide⟩

/-- Claim C7, amended: in a condition node, the item reference resolves
both name and id through the keyed profile [attr "item", child "item"],
but the state reference resolves only its name through
[attr "state", child "state"]; its id search is
[attr "state", attr "itemstate", child "itemstate"].  The attribute form
therefore resolves both references fully, while the child-element form
resolves the item fully but yields the state reference by name only. -/
theorem keyed_reference_amended :
    ∀ (iv sv : String) (i s : Int), pyIntParse iv = some i → pyIntParse sv = some s →
      ConditionSpec.from_xelt (Xelt.mk "prereq" [("item", iv), ("state", sv)] [] none) =
        Except.ok ⟨⟨some i, some iv⟩, ⟨some s, some sv⟩⟩ ∧
      ConditionSpec.from_xelt
        (Xelt.mk "prereq" []
          [Xelt.mk "item" [] [] (some iv), Xelt.mk "state" [] [] (some sv)] none) =
        Except.ok ⟨⟨some i, some iv⟩, ⟨none, some sv⟩⟩ := by
  intro iv sv i s hiv hsv
  constructor
  · have h1 : attr_lookup "item" (Xelt.mk "prereq" [("item", iv), ("state", sv)] [] none) =
        some iv := rfl
    have h2 : attr_lookup "state" (Xelt.mk "prereq" [("item", iv), ("state", sv)] [] none) =
        some sv := rfl
    unfold ConditionSpec.from_xelt NameSpec.from_xelt
    simp only [custom_search, do_int_lookup, do_lookup, h1, h2, hiv, hsv,
      except_bind_ok]
  · have h1 : elt_lookup "item"
        (Xelt.mk "prereq" []
          [Xelt.mk "item" [] [] (some iv), Xelt.mk "state" [] [] (some sv)] none) =
        some iv := rfl
    have h2 : elt_lookup "state"
        (Xelt.mk "prereq" []
          [Xelt.mk "item" [] [] (some iv), Xelt.mk "state" [] [] (some sv)] none) =
        some sv := rfl
    have h3 : attr_lookup "item"
        (Xelt.mk "prereq" []
          [Xelt.mk "item" [] [] (some iv), Xelt.mk "state" [] [] (some sv)] none) =
        none := rfl
    have h4 : attr_lookup "state"
        (Xelt.mk "prereq" []
          [Xelt.mk "item" [] [] (some iv), Xelt.mk "state" [] [] (some sv)] none) =
        none := rfl
    have h5 : attr_lookup "itemstate"
        (Xelt.mk "prereq" []
          [Xelt.mk "item" [] [] (some iv), Xelt.mk "state" [] [] (some sv)] none) =
        none := rfl
    have h6 : elt_lookup "itemstate"
        (Xelt.mk "prereq" []
          [Xelt.mk "item" [] [] (some iv), Xelt.mk "state" [] [] (some sv)] none) =
        none := rfl
    unfold ConditionSpec.from_xelt NameSpec.from_xelt
    simp only [custom_search, do_int_lookup, do_lookup, h1, h2, h3, h4, h5, h6, hiv, hsv,
      except_bind_ok]

/-- Claim C7, witness for `keyed_reference_amended` at the concrete
references item="4", state="2". -/
theorem keyed_reference_amended_witness :
    ConditionSpec.from_xelt (Xelt.mk "prereq" [("item", "4"), ("state", "2")] [] none) =
      Except.ok ⟨⟨some 4, some "4"⟩, ⟨some 2, some "2"⟩⟩ ∧
    ConditionSpec.from_xelt
      (Xelt.mk "prereq" []
        [Xelt.mk "item" [] [] (some "4"), Xelt.mk "state" [] [] (some "2")] none) =
      Except.ok ⟨⟨some 4, some "4"⟩, ⟨none, some "2"⟩⟩ :=
  keyed_reference_amended "4" "2" 4 2 (by decide) (by decide)

/-- Claim C8, counterexample: a special-response node with no "itemindex"
child and no item attribute or child, but carrying `name="Sword"`, decodes
its item reference to the fully empty identity — the fallback resolution
uses the item-keyed search, not the default name/id/index profile, which
would have found the name "Sword". -/
theorem sr_item_counterexample :
    (SpecialResponse.from_xelt
        (Xelt.mk "specialresponse" [("name", "Sword")]
          [Xelt.mk "actions" [] [] none] none)).map SpecialResponse.item =
      Except.ok ⟨none, none⟩ ∧
    NameSpec.from_xelt
      (Xelt.mk "specialresponse" [("name", "Sword")] [Xelt.mk "actions" [] [] none] none)
      idsearch_default namesearch_default = Except.ok ⟨none, some "Sword"⟩ :=
  ⟨by decide, by decide⟩

/-- Claim C8, amended: SpecialResponse decode first tries the child
"itemindex" as an integer and on success builds a bare id-only identity;
when the child is absent it falls back to the ItemSpec keyed search
[attr "item", child "item"] on the node itself — not to the default
name/id/index profile — and when the child is present but unparsable the
whole decode aborts with a `ValueError` rather than falling back. -/
theorem sr_item_amended :
    (∀ (elt : Xelt) (sr : SpecialResponse),
       SpecialResponse.from_xelt elt = Except.ok sr →
       (∀ n : Int, do_int_lookup elt [elt_lookup "itemindex"] = Except.ok (some n) →
          sr.item = ⟨some n, none⟩) ∧
       (do_int_lookup elt [elt_lookup "itemindex"] = Except.ok none →
          NameSpec.from_xelt elt (custom_search "item") (custom_search "item") =
            Except.ok sr.item)) ∧
    (∀ (elt : Xelt) (t : String), elt_lookup "itemindex" elt = some t →
       pyIntParse t = none →
       SpecialResponse.from_xelt elt = Except.error Err.valueError) := by
  constructor
  · intro elt sr h
    unfold SpecialResponse.from_xelt at h
    cases hix : do_int_lookup elt [elt_lookup "itemindex"] with
    | error e => rw [hix, except_bind_error] at h; cases h
    | ok ix =>
      rw [hix, except_bind_ok] at h
      cases hit : sr_item_resolve elt ix with
      | error e => rw [hit, except_bind_error] at h; cases h
      | ok item =>
        rw [hit, except_bind_ok] at h
        cases hst : NameSpec.from_xelt elt
            [attr_lookup "state", elt_lookup "state",
             attr_lookup "itemstate", elt_lookup "itemstate"]
            (custom_search "state") with
        | error e => rw [hst, except_bind_error] at h; cases h
        | ok ist =>
          rw [hst, except_bind_ok] at h
          cases hac : findContainer elt "actions" with
          | error e => rw [hac, except_bind_error] at h; cases h
          | ok actsC =>
            rw [hac, except_bind_ok] at h
            cases hm : exceptMap ConditionSpec.from_xelt actsC.children with
            | error e => rw [hm, except_bind_error] at h; cases h
            | ok acts =>
              rw [hm, except_bind_ok] at h
              cases h
              constructor
              · intro n hn
                cases hn
                unfold sr_item_resolve at hit
                cases hit
                rfl
              · intro hn
                cases hn
                unfold sr_item_resolve at hit
                exact hit
  · intro elt t ht hp
    unfold SpecialResponse.from_xelt
    have hix : do_int_lookup elt [elt_lookup "itemindex"] = Except.error Err.valueError := by
      simp only [do_int_lookup, ht, hp]
    rw [hix, except_bind_error]

/-- Claim C8, witness for `sr_item_amended`: a node with itemindex 3 gives
the bare id-only identity, and a node with itemindex "abc" aborts decode
with a `ValueError`. -/
theorem sr_item_amended_witness :
    (⟨⟨some 3, none⟩, none, none, none, ⟨none, none⟩, []⟩ : SpecialResponse).item =
      ⟨some 3, none⟩ ∧
    SpecialResponse.from_xelt
      (Xelt.mk "specialresponse" []
        [Xelt.mk "itemindex" [] [] (some "abc"), Xelt.mk "actions" [] [] none] none) =
      Except.error Err.valueError :=
  ⟨(sr_item_amended.1
      (Xelt.mk "specialresponse" []
        [Xelt.mk "itemindex" [] [] (some "3"), Xelt.mk "actions" [] [] none] none)
      ⟨⟨some 3, none⟩, none, none, none, ⟨none, none⟩, []⟩ (by decide)).1 3 (by decide),
   sr_item_amended.2
     (Xelt.mk "specialresponse" []
       [Xelt.mk "itemindex" [] [] (some "abc"), Xelt.mk "actions" [] [] none] none)
     "abc" (by decide) (by decide)⟩

end Xmlify
